import Mathlib

/-!
A shallow embedding of `src/mount.py` (an interactive helper that appends an
entry to the system fstab file) together with proofs about the claims of the
specification.

Modelling conventions:
* Python strings are Lean `String`s; the Python string operations used by the
  script (`strip`, `split`, `lower`, `replace`, `startswith`, `endswith`,
  slicing, `splitlines`, `strip('"')`) are re-implemented below by structural
  recursion on the character list so that every concrete run evaluates inside
  the kernel.
* Standard input is a list of events: a line typed by the operator, or an
  operator interrupt (`KeyboardInterrupt`).  Reading past the end of the
  event list behaves like an interrupt.
* The world state carries the fstab file content (`none` models a missing
  file), the list of backup copies made (`shutil.copy2`), the directories
  created (`os.makedirs`) and the warning messages printed so far.
* `sys.exit(1)` and an uncaught `KeyboardInterrupt` are modelled by the
  `Abort` error of an `Except` value; each `sys.exit` carries the reason
  message the script prints right before exiting.
* External tools (`lsblk`, `blkid`), the result of `os.path.isdir` /
  `os.listdir`, the success of `os.makedirs` / `shutil.copy2` / the fstab
  append, the effective uid and the current time are inputs of the run,
  collected in `Env`.
-/

/-- Characters Python's `str.strip()` removes (ASCII whitespace). -/
def isPySpace (c : Char) : Bool :=
  c = ' ' || c = '\t' || c = '\n' || c = '\r' || c = Char.ofNat 11 || c = Char.ofNat 12

/-- Drop characters satisfying `p` from both ends of a character list. -/
def stripCharBoth (p : Char → Bool) (l : List Char) : List Char :=
  ((l.dropWhile p).reverse.dropWhile p).reverse

/-- Python `s.strip()`. -/
def pyStrip (s : String) : String :=
  String.mk (stripCharBoth isPySpace s.data)

/-- Python `s.strip('"')`. -/
def stripQuotes (s : String) : String :=
  String.mk (stripCharBoth (fun c => c = '"') s.data)

/-- Accumulating worker for whitespace tokenisation (Python `s.split()`). -/
def wsTokensGo : List Char → List Char → List (List Char)
  | [], cur => if cur = [] then [] else [cur.reverse]
  | c :: cs, cur =>
    if isPySpace c then
      if cur = [] then wsTokensGo cs [] else cur.reverse :: wsTokensGo cs []
    else wsTokensGo cs (c :: cur)

/-- Python `s.split()` (split on whitespace runs, discarding empty tokens). -/
def pySplitWs (s : String) : List String :=
  (wsTokensGo s.data []).map String.mk

/-- Split a character list at every occurrence of `sep`, keeping empties. -/
def splitCharList (sep : Char) : List Char → List (List Char)
  | [] => [[]]
  | c :: cs =>
    let r := splitCharList sep cs
    if c = sep then [] :: r
    else
      match r with
      | [] => [[c]]
      | h :: t => (c :: h) :: t

/-- The lines of a file content, numbered from the split on `'\n'`.
Iterating a Python file object yields the newline-terminated chunks; each is
stripped immediately by the script, and the possible final empty chunk is
skipped as a blank line, so splitting on `'\n'` is behaviourally equal. -/
def splitLines (s : String) : List String :=
  (splitCharList '\n' s.data).map String.mk

/-- Python `s.startswith(p)` on character lists. -/
def listStartsWith : List Char → List Char → Bool
  | _, [] => true
  | [], _ :: _ => false
  | c :: cs, p :: ps => c = p && listStartsWith cs ps

/-- Python `s.startswith(p)`. -/
def strStartsWith (s p : String) : Bool :=
  listStartsWith s.data p.data

/-- Python `s.endswith("\n")`. -/
def endsWithNewline (s : String) : Bool :=
  s.data.getLast? = some '\n'

/-- ASCII lower-casing of one character (Python `str.lower` on ASCII data). -/
def pyLowerChar (c : Char) : Char :=
  if 'A' ≤ c && c ≤ 'Z' then Char.ofNat (c.toNat + 32) else c

/-- Python `s.lower()`. -/
def pyLower (s : String) : String :=
  String.mk (s.data.map pyLowerChar)

/-- Python `s.replace(" ", "_")` (single-character needle, so a map). -/
def replaceSpaceWithUnderscore (s : String) : String :=
  String.mk (s.data.map (fun c => if c = ' ' then '_' else c))

/-- Python `s[:n]`. -/
def takeStr (n : Nat) (s : String) : String :=
  String.mk (s.data.take n)

/-- Everything after the first `'='` (Python `s.split("=", 1)[1]` when `'='`
occurs, as it does on every line guarded by `startswith("LABEL=")`). -/
def afterFirstEq : List Char → List Char
  | [] => []
  | c :: cs => if c = '=' then cs else afterFirstEq cs

/-- Decimal digit character for `d < 10` (and a placeholder above). -/
def digitChar : Nat → Char
  | 0 => '0' | 1 => '1' | 2 => '2' | 3 => '3' | 4 => '4'
  | 5 => '5' | 6 => '6' | 7 => '7' | 8 => '8' | _ => '9'

/-- Fuel-driven decimal digit expansion; fuel `n + 1` always suffices. -/
def natDigitsGo : Nat → Nat → List Char → List Char
  | 0, _, acc => acc
  | fuel + 1, n, acc =>
    if n < 10 then digitChar n :: acc
    else natDigitsGo fuel (n / 10) (digitChar (n % 10) :: acc)

/-- Decimal rendering of a natural number. -/
def natToStr (n : Nat) : String :=
  String.mk (natDigitsGo (n + 1) n [])

/-- Zero-pad to two digits (`%m`, `%d`, `%H`, `%M`, `%S`). -/
def pad2 (n : Nat) : String :=
  if n < 10 then "0" ++ natToStr n else natToStr n

/-- Zero-pad to four digits (`%Y`). -/
def pad4 (n : Nat) : String :=
  if n < 10 then "000" ++ natToStr n
  else if n < 100 then "00" ++ natToStr n
  else if n < 1000 then "0" ++ natToStr n
  else natToStr n

/-- A wall-clock instant as `datetime.now()` provides it. -/
structure DateTime where
  year : Nat
  month : Nat
  day : Nat
  hour : Nat
  minute : Nat
  second : Nat
deriving DecidableEq

/-- Model of `datetime.strftime('%Y%m%d-%H%M%S')` — the backup-path timestamp. -/
def strftimeBackupStamp (t : DateTime) : String :=
  pad4 t.year ++ pad2 t.month ++ pad2 t.day ++ "-" ++
    pad2 t.hour ++ pad2 t.minute ++ pad2 t.second

/-- Model of `datetime.strftime('%Y-%m-%d %H:%M:%S')` — the comment-line timestamp. -/
def strftimeCommentStamp (t : DateTime) : String :=
  pad4 t.year ++ "-" ++ pad2 t.month ++ "-" ++ pad2 t.day ++ " " ++
    pad2 t.hour ++ ":" ++ pad2 t.minute ++ ":" ++ pad2 t.second

/-- Model of `FSTAB_FILE` from the script. -/
def FSTAB_FILE : String := "/etc/fstab"

/-- Model of `DEFAULT_MOUNT_OPTIONS` from the script. -/
def DEFAULT_MOUNT_OPTIONS : String := "defaults"

/-- Model of `DEFAULT_DUMP_PASS` from the script. -/
def DEFAULT_DUMP_PASS : String := "0 0"

/-- Outcome of one `subprocess.run` invocation of an external tool. -/
inductive ToolResult where
  /-- The executable was not found (`FileNotFoundError`). -/
  | missing : ToolResult
  /-- The process ran with the given return code and standard output. -/
  | ran (returncode : Int) (stdout : String) : ToolResult
deriving DecidableEq

/-- Model of `get_fs_type_for_uuid`: filesystem type via `lsblk -no FSTYPE UUID=...`;
`none` models Python's `None`. -/
def get_fs_type_for_uuid (uuid_to_find : String) (tool : ToolResult) :
    Option String :=
  if uuid_to_find = "" then none
  else
    match tool with
    | .missing => none
    | .ran rc out =>
      if rc = 0 ∧ pyStrip out ≠ "" then some (pyStrip out) else none

/-- First `LABEL=` line of `blkid -o export` output, unquoted. -/
def findLabelLine : List String → Option String
  | [] => none
  | l :: ls =>
    if strStartsWith l "LABEL=" then some (stripQuotes (String.mk (afterFirstEq l.data)))
    else findLabelLine ls

/-- Model of `get_label_for_uuid`: volume label via `blkid -U <uuid> -o export`. -/
def get_label_for_uuid (uuid_to_find : String) (tool : ToolResult) :
    Option String :=
  if uuid_to_find = "" then none
  else
    match tool with
    | .missing => none
    | .ran rc out =>
      if rc = 0 then findLabelLine (splitLines out) else none

/-- One event on standard input: a typed line, or an operator interrupt. -/
inductive Inp where
  /-- A line the operator types at a prompt. -/
  | line (s : String) : Inp
  /-- Model of `KeyboardInterrupt` raised while a prompt is waiting. -/
  | interrupt : Inp
deriving DecidableEq

/-- The mutable world the script touches. -/
structure St where
  /-- Remaining standard-input events. -/
  inputs : List Inp
  /-- Content of `/etc/fstab`; `none` models an absent file. -/
  fstab : Option String
  /-- Backup copies made so far, as (path, copied bytes) pairs. -/
  backups : List (String × String)
  /-- Directories created by `os.makedirs`. -/
  dirsCreated : List String
  /-- Warning messages printed so far. -/
  warnings : List String
deriving DecidableEq

/-- How a run of a stage can terminate the whole process. -/
inductive Abort where
  /-- Model of `sys.exit code` right after printing `msg`. -/
  | exit (code : Nat) (msg : String) : Abort
  /-- A `KeyboardInterrupt` propagating out of a prompt. -/
  | interrupt : Abort
deriving DecidableEq

/-- The non-interactive inputs of one run: tool results, directory state,
success of the file-system operations, the effective uid and the clock. -/
structure Env where
  /-- Model of `os.geteuid() == 0`. -/
  isRoot : Bool
  /-- Result of `lsblk -no FSTYPE UUID=<uuid>` for the entered uuid. -/
  fsTool : ToolResult
  /-- Result of `blkid -U <uuid> -o export` for the entered uuid. -/
  labelTool : ToolResult
  /-- Model of `os.path.isdir(mount_point)`. -/
  dirIsDir : Bool
  /-- Model of `os.listdir(mount_point)` when the directory exists;
  `none` models `PermissionError`. -/
  dirListing : Option (List String)
  /-- Whether `os.makedirs` succeeds. -/
  mkdirOk : Bool
  /-- Whether `shutil.copy2` of the fstab file succeeds (given it exists). -/
  backupOk : Bool
  /-- Whether opening and appending to the fstab file succeeds. -/
  appendOk : Bool
  /-- Model of `datetime.now()`. -/
  now : DateTime
deriving DecidableEq

/-- The tuple `get_user_input` returns. -/
structure Params where
  drive_uuid : String
  mount_point : String
  fs_type : String
  mount_options : String
  dump_pass : String
deriving DecidableEq

/-- The state a stage result carries, whether it returned or aborted. -/
def outSt {α : Type} : Except (Abort × St) (α × St) → St
  | .ok (_, st) => st
  | .error (_, st) => st

/-- Model of `input(...)`: consume the next stdin event; an interrupt event (or
exhausted input) raises `KeyboardInterrupt`. -/
def readLine (st : St) : Except (Abort × St) (String × St) :=
  match st.inputs with
  | .line s :: rest => .ok (s, { st with inputs := rest })
  | .interrupt :: rest => .error (.interrupt, { st with inputs := rest })
  | [] => .error (.interrupt, st)

/-- Message printed before `sys.exit(1)` when the uuid prompt is empty. -/
def uuidEmptyMsg : String := "UUID cannot be empty. Exiting."

/-- Message printed when `/etc/fstab` is missing. -/
def fstabMissingMsg : String :=
  "Error: /etc/fstab not found. This script expects a standard Linux environment."

/-- Message printed when a confirmation is declined fatally. -/
def abortingMsg : String := "Aborting."

/-- Message printed before the (unreachable) empty-mount-point exit. -/
def mountPointEmptyMsg : String := "Mount point cannot be empty. Exiting."

/-- Message printed when the filesystem type ends up empty. -/
def fsTypeEmptyMsg : String := "Filesystem type cannot be empty. Exiting."

/-- Message printed when `os.makedirs` fails. -/
def mkdirFailMsg : String := "Failed to create directory."

/-- Message printed when backing up `/etc/fstab` fails. -/
def backupFailMsg : String := "Failed to backup /etc/fstab. Aborting."

/-- Message printed when appending to `/etc/fstab` fails. -/
def appendFailMsg : String := "Failed to add entry to /etc/fstab."

/-- Message printed when the script is not run as root. -/
def rootMsg : String := "This script needs to be run as root."

/-- Message printed by the top-level `KeyboardInterrupt` handler. -/
def interruptMsg : String := "Script interrupted by user. Exiting."

/-- The uuid prompt: read, strip, and fail fatally on an empty answer
(`mount.py` lines 84–87). -/
def askUuid (st : St) : Except (Abort × St) (String × St) :=
  match readLine st with
  | .error e => .error e
  | .ok (raw, st₁) =>
    let drive_uuid := pyStrip raw
    if drive_uuid = "" then .error (.exit 1 uuidEmptyMsg, st₁)
    else .ok (drive_uuid, st₁)

/-- The duplicate-uuid scan loop (`mount.py` lines 92–104): first active line
whose first whitespace token is `UUID=<uuid>`, with its 1-based line number
and stripped content. -/
def scanUuid (drive_uuid : String) : List String → Nat → Option (Nat × String)
  | [], _ => none
  | l :: rest, line_num =>
    let line_content := pyStrip l
    if line_content = "" ∨ strStartsWith line_content "#" = true then
      scanUuid drive_uuid rest (line_num + 1)
    else
      match pySplitWs line_content with
      | [] => scanUuid drive_uuid rest (line_num + 1)
      | p0 :: _ =>
        if p0 = "UUID=" ++ drive_uuid then some (line_num, line_content)
        else scanUuid drive_uuid rest (line_num + 1)

/-- The duplicate-mount-point scan loop (`mount.py` lines 126–138): first
active line whose second whitespace token equals the mount point. -/
def scanMp (mount_point : String) : List String → Nat → Option (Nat × String)
  | [], _ => none
  | l :: rest, line_num =>
    let line_content := pyStrip l
    if line_content = "" ∨ strStartsWith line_content "#" = true then
      scanMp mount_point rest (line_num + 1)
    else
      match pySplitWs line_content with
      | _ :: p1 :: _ =>
        if p1 = mount_point then some (line_num, line_content)
        else scanMp mount_point rest (line_num + 1)
      | _ => scanMp mount_point rest (line_num + 1)

/-- Whether a raw fstab line is an active line whose first token is
`UUID=<uuid>` (what one iteration of the duplicate-uuid loop tests). -/
def lineMatchesUuid (drive_uuid raw : String) : Bool :=
  let line_content := pyStrip raw
  if line_content = "" ∨ strStartsWith line_content "#" = true then false
  else
    match pySplitWs line_content with
    | [] => false
    | p0 :: _ => p0 = "UUID=" ++ drive_uuid

/-- Warning printed when the uuid is already present in the table. -/
def uuidDupWarn (drive_uuid : String) (line_num : Nat) : String :=
  "Warning: An entry with UUID=" ++ drive_uuid ++ " already exists in " ++
    FSTAB_FILE ++ " (line " ++ natToStr line_num ++ "):"

/-- Warning printed when the mount point is already used in the table. -/
def mpDupWarn (mount_point : String) (line_num : Nat) : String :=
  "Warning: Mount point " ++ mount_point ++ " is already used in an active entry in " ++
    FSTAB_FILE ++ " (line " ++ natToStr line_num ++ "):"

/-- The duplicate-uuid check (`mount.py` lines 89–110): a missing table file
is fatal; on the first match, warn with the line number and content and
require the answer `yes` (lower-cased) to continue. -/
def checkUuidDup (drive_uuid : String) (st : St) :
    Except (Abort × St) (Unit × St) :=
  match st.fstab with
  | none => .error (.exit 1 fstabMissingMsg, st)
  | some content =>
    match scanUuid drive_uuid (splitLines content) 1 with
    | none => .ok ((), st)
    | some (line_num, line_content) =>
      let st₁ := { st with warnings :=
        st.warnings ++ [uuidDupWarn drive_uuid line_num, "  " ++ line_content] }
      match readLine st₁ with
      | .error e => .error e
      | .ok (ans, st₂) =>
        if pyLower ans = "yes" then .ok ((), st₂)
        else .error (.exit 1 abortingMsg, st₂)

/-- Model of `label.replace(" ", "_").lower() if label else f"drive-{drive_uuid[:8]}"`
(`mount.py` line 113); Python's truthiness makes both `None` and the empty
label fall back to the uuid-derived name. -/
def default_mount_name (label : Option String) (drive_uuid : String) : String :=
  match label with
  | some l =>
    if l = "" then "drive-" ++ takeStr 8 drive_uuid
    else pyLower (replaceSpaceWithUnderscore l)
  | none => "drive-" ++ takeStr 8 drive_uuid

/-- Model of `f"/mnt/{default_mount_name}"` (`mount.py` line 114). -/
def suggested_mount_point (label : Option String) (drive_uuid : String) : String :=
  "/mnt/" ++ default_mount_name label drive_uuid

/-- The mount-point prompt (`mount.py` lines 112–121): suggest a path from
the label lookup, default the blank answer to it, and exit fatally if the
result is empty. -/
def chooseMountPoint (env : Env) (drive_uuid : String) (st : St) :
    Except (Abort × St) (String × St) :=
  let label := get_label_for_uuid drive_uuid env.labelTool
  match readLine st with
  | .error e => .error e
  | .ok (raw, st₁) =>
    let entered := pyStrip raw
    let mount_point :=
      if entered = "" then suggested_mount_point label drive_uuid else entered
    if mount_point = "" then .error (.exit 1 mountPointEmptyMsg, st₁)
    else .ok (mount_point, st₁)

/-- The duplicate-mount-point check (`mount.py` lines 123–143): same scan as
the uuid check on the second token; a missing table file is silently skipped
(`except FileNotFoundError: pass`). -/
def checkMpDup (mount_point : String) (st : St) :
    Except (Abort × St) (Unit × St) :=
  match st.fstab with
  | none => .ok ((), st)
  | some content =>
    match scanMp mount_point (splitLines content) 1 with
    | none => .ok ((), st)
    | some (line_num, line_content) =>
      let st₁ := { st with warnings :=
        st.warnings ++ [mpDupWarn mount_point line_num, "  " ++ line_content] }
      match readLine st₁ with
      | .error e => .error e
      | .ok (ans, st₂) =>
        if pyLower ans = "yes" then .ok ((), st₂)
        else .error (.exit 1 abortingMsg, st₂)

/-- The filesystem-type prompt (`mount.py` lines 146–158): pre-fill from the
lookup when it succeeded; an empty final value is fatal. -/
def chooseFsType (env : Env) (drive_uuid : String) (st : St) :
    Except (Abort × St) (String × St) :=
  let detected := get_fs_type_for_uuid drive_uuid env.fsTool
  match readLine st with
  | .error e => .error e
  | .ok (raw, st₁) =>
    let fs_type :=
      match detected with
      | some d => if pyStrip raw = "" then d else pyStrip raw
      | none => pyStrip raw
    if fs_type = "" then .error (.exit 1 fsTypeEmptyMsg, st₁)
    else .ok (fs_type, st₁)

/-- The mount-options prompt (`mount.py` lines 160–161). -/
def chooseOptions (st : St) : Except (Abort × St) (String × St) :=
  match readLine st with
  | .error e => .error e
  | .ok (raw, st₁) =>
    let v := pyStrip raw
    .ok (if v = "" then DEFAULT_MOUNT_OPTIONS else v, st₁)

/-- The dump/pass prompt (`mount.py` lines 163–164). -/
def chooseDumpPass (st : St) : Except (Abort × St) (String × St) :=
  match readLine st with
  | .error e => .error e
  | .ok (raw, st₁) =>
    let v := pyStrip raw
    .ok (if v = "" then DEFAULT_DUMP_PASS else v, st₁)

/-- Model of `get_user_input` (`mount.py` lines 82–166): the whole interactive form. -/
def get_user_input (env : Env) (st : St) :
    Except (Abort × St) (Params × St) :=
  match askUuid st with
  | .error e => .error e
  | .ok (drive_uuid, st₁) =>
    match checkUuidDup drive_uuid st₁ with
    | .error e => .error e
    | .ok (_, st₂) =>
      match chooseMountPoint env drive_uuid st₂ with
      | .error e => .error e
      | .ok (mount_point, st₃) =>
        match checkMpDup mount_point st₃ with
        | .error e => .error e
        | .ok (_, st₄) =>
          match chooseFsType env drive_uuid st₄ with
          | .error e => .error e
          | .ok (fs_type, st₅) =>
            match chooseOptions st₅ with
            | .error e => .error e
            | .ok (mount_options, st₆) =>
              match chooseDumpPass st₆ with
              | .error e => .error e
              | .ok (dump_pass, st₇) =>
                .ok (⟨drive_uuid, mount_point, fs_type, mount_options, dump_pass⟩, st₇)

/-- Warning printed when the operator declines creating the mount point. -/
def mpNotCreatedWarn (mount_point : String) : String :=
  "Warning: Mount point directory " ++ mount_point ++
    " not created. Mounting will fail if it does not exist."

/-- Warning printed when the mount point exists and is not empty. -/
def mpNonEmptyWarn (mount_point : String) : String :=
  "Warning: Mount point " ++ mount_point ++ " exists and is not empty."

/-- Warning printed when the mount point contents cannot be listed. -/
def mpPermWarn (mount_point : String) : String :=
  "Warning: Cannot check contents of " ++ mount_point ++
    " due to permissions, but it exists."

/-- Model of `create_mount_point_dir` (`mount.py` lines 168–197). -/
def create_mount_point_dir (env : Env) (mount_point : String) (st : St) :
    Except (Abort × St) (Unit × St) :=
  if env.dirIsDir = false then
    match readLine st with
    | .error e => .error e
    | .ok (ans, st₁) =>
      if pyLower ans = "yes" then
        if env.mkdirOk then
          .ok ((), { st₁ with dirsCreated := st₁.dirsCreated ++ [mount_point] })
        else .error (.exit 1 mkdirFailMsg, st₁)
      else
        .ok ((), { st₁ with warnings := st₁.warnings ++ [mpNotCreatedWarn mount_point] })
  else
    match env.dirListing with
    | none => .ok ((), { st with warnings := st.warnings ++ [mpPermWarn mount_point] })
    | some entries =>
      if entries = [] then .ok ((), st)
      else
        let st₁ := { st with warnings := st.warnings ++ [mpNonEmptyWarn mount_point] }
        match readLine st₁ with
        | .error e => .error e
        | .ok (ans, st₂) =>
          if pyLower ans = "yes" then .ok ((), st₂)
          else .error (.exit 1 abortingMsg, st₂)

/-- Model of `fstab_entry` (`mount.py` line 202): the five fields joined by single
spaces. -/
def fstabEntry (p : Params) : String :=
  "UUID=" ++ p.drive_uuid ++ " " ++ p.mount_point ++ " " ++ p.fs_type ++ " " ++
    p.mount_options ++ " " ++ p.dump_pass

/-- The comment line recording the addition (`mount.py` line 226), without
its trailing newline. -/
def entryComment (t : DateTime) : String :=
  "# Entry added by script on " ++ strftimeCommentStamp t

/-- The backup path (`mount.py` line 211). -/
def backupPath (t : DateTime) : String :=
  FSTAB_FILE ++ ".bak." ++ strftimeBackupStamp t

/-- Model of `add_to_fstab` (`mount.py` lines 200–245): confirm, back up, append. -/
def add_to_fstab (env : Env) (p : Params) (st : St) :
    Except (Abort × St) (Unit × St) :=
  let entry := fstabEntry p
  match readLine st with
  | .error e => .error e
  | .ok (ans, st₁) =>
    if pyLower ans = "yes" then
      match st₁.fstab, env.backupOk with
      | some content, true =>
        let st₂ := { st₁ with backups := st₁.backups ++ [(backupPath env.now, content)] }
        if env.appendOk then
          let newContent := content ++
            (if content ≠ "" ∧ endsWithNewline content = false then "\n" else "") ++
            entryComment env.now ++ "\n" ++ entry ++ "\n"
          .ok ((), { st₂ with fstab := some newContent })
        else .error (.exit 1 appendFailMsg, st₂)
      | _, _ => .error (.exit 1 backupFailMsg, st₁)
    else .ok ((), st₁)

/-- Exit status, final message and final world of a whole run. -/
structure RunOutcome where
  exitCode : Nat
  exitMsg : String
  final : St
deriving DecidableEq

/-- The body of `main`'s `try` block (`mount.py` lines 253–255). -/
def pipeline (env : Env) (st : St) : Except (Abort × St) (Unit × St) :=
  match get_user_input env st with
  | .error e => .error e
  | .ok (p, st₁) =>
    match create_mount_point_dir env p.mount_point st₁ with
    | .error e => .error e
    | .ok (_, st₂) => add_to_fstab env p st₂

/-- Model of `main` (`mount.py` lines 247–262), named `runMain` since Lean reserves `main`: privilege gate, then the pipeline;
`sys.exit` codes pass through and `KeyboardInterrupt` becomes a non-zero
exit with its own message.  (`list_drives` only prints advisory text and is
not modelled.) -/
def runMain (env : Env) (st : St) : RunOutcome :=
  if env.isRoot then
    match pipeline env st with
    | .ok (_, st₁) => ⟨0, "", st₁⟩
    | .error (.exit code msg, st₁) => ⟨code, msg, st₁⟩
    | .error (.interrupt, st₁) => ⟨1, interruptMsg, st₁⟩
  else ⟨1, rootMsg, st⟩

/-- All characters of a list are decimal digits. -/
def digitsOnly (l : List Char) : Prop := ∀ c ∈ l, c.isDigit

deriving instance DecidableEq for Except

/-- A stage result leaves the table file and the backups unchanged. -/
def presFB (st : St) {α : Type} (r : Except (Abort × St) (α × St)) : Prop :=
  (outSt r).fstab = st.fstab ∧ (outSt r).backups = st.backups

/-- The shape `YYYYMMDD-HHMMSS`: eight digits, a dash, six digits. -/
def stampWellFormed (s : String) : Prop :=
  ∃ a b, s.data = a ++ '-' :: b ∧ a.length = 8 ∧ b.length = 6 ∧
    digitsOnly a ∧ digitsOnly b

/-- Component ranges `datetime.now()` always satisfies. -/
def validDT (t : DateTime) : Prop :=
  t.year ≤ 9999 ∧ t.month ≤ 99 ∧ t.day ≤ 99 ∧ t.hour ≤ 99 ∧
    t.minute ≤ 99 ∧ t.second ≤ 99

/-- A benign environment used by the concrete runs below. -/
def envBase : Env :=
  { isRoot := true
    fsTool := .missing
    labelTool := .missing
    dirIsDir := true
    dirListing := some []
    mkdirOk := true
    backupOk := true
    appendOk := true
    now := ⟨2024, 1, 2, 3, 4, 5⟩ }

/-- Session parameters used by the concrete runs below. -/
def params0 : Params := ⟨"U1", "/mnt/x", "ext4", "defaults", "0 0"⟩

/-- A world whose table file is empty, about to confirm the final prompt. -/
def stEmptyFstab : St := ⟨[.line "yes"], some "", [], [], []⟩

/-- The environment of the specification's worked scenario: label
`Backup Drive` and filesystem type `ntfs` are detected for the uuid. -/
def env6 : Env :=
  { isRoot := true
    fsTool := .ran 0 "ntfs\n"
    labelTool := .ran 0 "DEVNAME=/dev/sdb1\nLABEL=Backup Drive\nUUID=ABCD-1234\nTYPE=ntfs\n"
    dirIsDir := true
    dirListing := some []
    mkdirOk := true
    backupOk := true
    appendOk := true
    now := ⟨2024, 1, 2, 3, 4, 5⟩ }

/-- The operator answers of the worked scenario: the uuid, then four blank
answers accepting every default. -/
def st6 : St :=
  { inputs := [.line "ABCD-1234", .line "", .line "", .line "", .line ""]
    fstab := some "# /etc/fstab\nUUID=OTHER-111 / ext4 defaults 0 1\n"
    backups := []
    dirsCreated := []
    warnings := [] }

theorem readLine_state (st : St) :
    (outSt (readLine st)).fstab = st.fstab ∧
    (outSt (readLine st)).backups = st.backups ∧
    (outSt (readLine st)).warnings = st.warnings ∧
    (outSt (readLine st)).dirsCreated = st.dirsCreated := by
  unfold readLine
  rcases st with ⟨ins, f, b, d, w⟩
  rcases ins with _ | ⟨i, rest⟩
  · simp [outSt]
  · rcases i with s | _ <;> simp [outSt]

theorem readLine_err {st st₁ : St} {e : Abort} (h : readLine st = .error (e, st₁)) :
    e = .interrupt := by
  unfold readLine at h
  split at h <;> simp_all

theorem askUuid_pres (st : St) : presFB st (askUuid st) := by
  unfold presFB askUuid
  cases h : readLine st with
  | ok v =>
    rcases v with ⟨s, st₁⟩
    have hr := readLine_state st
    rw [h] at hr
    simp [outSt] at hr
    dsimp only
    split <;> simp [outSt, hr.1, hr.2.1]
  | error e =>
    rcases e with ⟨a, st₁⟩
    have hr := readLine_state st
    rw [h] at hr
    simp [outSt] at hr ⊢
    exact ⟨hr.1, hr.2.1⟩

theorem presFB_ok {st st₁ : St} {α : Type} {r : Except (Abort × St) (α × St)} {v : α}
    (hp : presFB st r) (h : r = .ok (v, st₁)) :
    st₁.fstab = st.fstab ∧ st₁.backups = st.backups := by
  rw [h] at hp
  simpa [presFB, outSt] using hp

theorem askUuid_err {st st₁ : St} {e : Abort} (h : askUuid st = .error (e, st₁)) :
    e = .interrupt ∨ e = .exit 1 uuidEmptyMsg := by
  unfold askUuid at h
  split at h
  · rename_i heq
    cases h
    exact .inl (readLine_err heq)
  · dsimp only at h
    split at h <;> simp_all

theorem checkUuidDup_pres (u : String) (st : St) : presFB st (checkUuidDup u st) := by
  unfold checkUuidDup
  split
  · simp [presFB, outSt]
  · split
    · simp [presFB, outSt]
    · rename_i content hc n lc hscan
      dsimp only
      cases h : readLine { st with warnings := st.warnings ++ [uuidDupWarn u n, "  " ++ lc] } with
      | ok v =>
        rcases v with ⟨ans, st₂⟩
        have hr := readLine_state { st with warnings := st.warnings ++ [uuidDupWarn u n, "  " ++ lc] }
        rw [h] at hr
        simp [outSt] at hr
        dsimp only
        split <;> simp [presFB, outSt, hr.1, hr.2.1]
      | error e =>
        rcases e with ⟨a, st₂⟩
        have hr := readLine_state { st with warnings := st.warnings ++ [uuidDupWarn u n, "  " ++ lc] }
        rw [h] at hr
        simp [outSt] at hr
        dsimp only
        simp [presFB, outSt, hr.1, hr.2.1]

theorem checkUuidDup_err {u : String} {st st₁ : St} {e : Abort}
    (h : checkUuidDup u st = .error (e, st₁)) :
    e = .interrupt ∨ e = .exit 1 fstabMissingMsg ∨ e = .exit 1 abortingMsg := by
  unfold checkUuidDup at h
  split at h
  · simp_all
  · split at h
    · simp_all
    · dsimp only at h
      split at h
      · rename_i heq
        cases h
        exact .inl (readLine_err heq)
      · split at h <;> simp_all

theorem suggested_mount_point_ne_empty (label : Option String) (uuid : String) :
    suggested_mount_point label uuid ≠ "" := by
  unfold suggested_mount_point
  intro h
  have hd : ("/mnt/" ++ default_mount_name label uuid).data = "".data :=
    congrArg String.data h
  rw [String.data_append] at hd
  simp [List.append_eq_nil] at hd

theorem chooseMountPoint_pres (env : Env) (u : String) (st : St) :
    presFB st (chooseMountPoint env u st) := by
  unfold chooseMountPoint
  cases h : readLine st with
  | ok v =>
    rcases v with ⟨raw, st₁⟩
    have hr := readLine_state st
    rw [h] at hr
    simp [outSt] at hr
    dsimp only
    split <;> (try split) <;> simp [presFB, outSt, hr.1, hr.2.1]
  | error e =>
    rcases e with ⟨a, st₁⟩
    have hr := readLine_state st
    rw [h] at hr
    simp [outSt] at hr
    dsimp only
    simp [presFB, outSt, hr.1, hr.2.1]

theorem chooseMountPoint_err {env : Env} {u : String} {st st₁ : St} {e : Abort}
    (h : chooseMountPoint env u st = .error (e, st₁)) :
    e = .interrupt := by
  unfold chooseMountPoint at h
  split at h
  · rename_i heq
    cases h
    exact readLine_err heq
  · dsimp only at h
    split at h <;> (try split at h) <;>
      first
        | exact ((suggested_mount_point_ne_empty (get_label_for_uuid u env.labelTool) u) ‹_›).elim
        | simp_all

theorem checkMpDup_pres (mp : String) (st : St) : presFB st (checkMpDup mp st) := by
  unfold checkMpDup
  split
  · simp [presFB, outSt]
  · split
    · simp [presFB, outSt]
    · rename_i content hc n lc hscan
      dsimp only
      cases h : readLine { st with warnings := st.warnings ++ [mpDupWarn mp n, "  " ++ lc] } with
      | ok v =>
        rcases v with ⟨ans, st₂⟩
        have hr := readLine_state { st with warnings := st.warnings ++ [mpDupWarn mp n, "  " ++ lc] }
        rw [h] at hr
        simp [outSt] at hr
        dsimp only
        split <;> simp [presFB, outSt, hr.1, hr.2.1]
      | error e =>
        rcases e with ⟨a, st₂⟩
        have hr := readLine_state { st with warnings := st.warnings ++ [mpDupWarn mp n, "  " ++ lc] }
        rw [h] at hr
        simp [outSt] at hr
        dsimp only
        simp [presFB, outSt, hr.1, hr.2.1]

theorem checkMpDup_err {mp : String} {st st₁ : St} {e : Abort}
    (h : checkMpDup mp st = .error (e, st₁)) :
    e = .interrupt ∨ e = .exit 1 abortingMsg := by
  unfold checkMpDup at h
  split at h
  · simp_all
  · split at h
    · simp_all
    · dsimp only at h
      split at h
      · rename_i heq
        cases h
        exact .inl (readLine_err heq)
      · split at h <;> simp_all

theorem chooseFsType_pres (env : Env) (u : String) (st : St) :
    presFB st (chooseFsType env u st) := by
  unfold chooseFsType
  cases h : readLine st with
  | ok v =>
    rcases v with ⟨raw, st₁⟩
    have hr := readLine_state st
    rw [h] at hr
    simp [outSt] at hr
    dsimp only
    rcases hdet : get_fs_type_for_uuid u env.fsTool with _ | d <;>
        dsimp only <;> split <;> (try split) <;> simp [presFB, outSt, hr.1, hr.2.1]
  | error e =>
    rcases e with ⟨a, st₁⟩
    have hr := readLine_state st
    rw [h] at hr
    simp [outSt] at hr
    dsimp only
    simp [presFB, outSt, hr.1, hr.2.1]

theorem chooseFsType_err {env : Env} {u : String} {st st₁ : St} {e : Abort}
    (h : chooseFsType env u st = .error (e, st₁)) :
    e = .interrupt ∨ e = .exit 1 fsTypeEmptyMsg := by
  unfold chooseFsType at h
  split at h
  · rename_i heq
    cases h
    exact .inl (readLine_err heq)
  · dsimp only at h
    rcases hdet : get_fs_type_for_uuid u env.fsTool with _ | d <;>
      split at h <;> (try split at h) <;> simp_all

theorem chooseOptions_pres (st : St) : presFB st (chooseOptions st) := by
  unfold chooseOptions
  cases h : readLine st with
  | ok v =>
    rcases v with ⟨raw, st₁⟩
    have hr := readLine_state st
    rw [h] at hr
    simp [outSt] at hr
    simp [presFB, outSt, hr.1, hr.2.1]
  | error e =>
    rcases e with ⟨a, st₁⟩
    have hr := readLine_state st
    rw [h] at hr
    simp [outSt] at hr
    simp [presFB, outSt, hr.1, hr.2.1]

theorem chooseOptions_err {st st₁ : St} {e : Abort}
    (h : chooseOptions st = .error (e, st₁)) : e = .interrupt := by
  unfold chooseOptions at h
  split at h
  · rename_i heq
    cases h
    exact readLine_err heq
  · simp_all

theorem chooseDumpPass_pres (st : St) : presFB st (chooseDumpPass st) := by
  unfold chooseDumpPass
  cases h : readLine st with
  | ok v =>
    rcases v with ⟨raw, st₁⟩
    have hr := readLine_state st
    rw [h] at hr
    simp [outSt] at hr
    simp [presFB, outSt, hr.1, hr.2.1]
  | error e =>
    rcases e with ⟨a, st₁⟩
    have hr := readLine_state st
    rw [h] at hr
    simp [outSt] at hr
    simp [presFB, outSt, hr.1, hr.2.1]

theorem chooseDumpPass_err {st st₁ : St} {e : Abort}
    (h : chooseDumpPass st = .error (e, st₁)) : e = .interrupt := by
  unfold chooseDumpPass at h
  split at h
  · rename_i heq
    cases h
    exact readLine_err heq
  · simp_all

theorem presFB_trans {st st₁ : St} {α : Type} {r : Except (Abort × St) (α × St)}
    (h₁ : st₁.fstab = st.fstab ∧ st₁.backups = st.backups) (h₂ : presFB st₁ r) :
    presFB st r := by
  unfold presFB at h₂ ⊢
  exact ⟨h₂.1.trans h₁.1, h₂.2.trans h₁.2⟩

theorem presFB_error {st st₁ : St} {α : Type} {e : Abort}
    {r : Except (Abort × St) (α × St)} (hp : presFB st r) (h : r = .error (e, st₁)) :
    st₁.fstab = st.fstab ∧ st₁.backups = st.backups := by
  rw [h] at hp
  simpa [presFB, outSt] using hp

theorem get_user_input_pres (env : Env) (st : St) :
    presFB st (get_user_input env st) := by
  unfold get_user_input
  cases h₁ : askUuid st with
  | error e =>
    rcases e with ⟨a, s⟩
    dsimp only
    have q := presFB_error (askUuid_pres st) h₁
    exact ⟨q.1, q.2⟩
  | ok v =>
    rcases v with ⟨u, st₁⟩
    have p1 := presFB_ok (askUuid_pres st) h₁
    dsimp only
    cases h₂ : checkUuidDup u st₁ with
    | error e =>
      rcases e with ⟨a, s⟩
      dsimp only
      have q := presFB_error (checkUuidDup_pres u st₁) h₂
      exact ⟨(q.1.trans p1.1), (q.2.trans p1.2)⟩
    | ok v =>
      rcases v with ⟨_, st₂⟩
      have p2 := presFB_ok (checkUuidDup_pres u st₁) h₂
      dsimp only
      cases h₃ : chooseMountPoint env u st₂ with
      | error e =>
        rcases e with ⟨a, s⟩
        dsimp only
        have q := presFB_error (chooseMountPoint_pres env u st₂) h₃
        exact ⟨((q.1.trans p2.1).trans p1.1), ((q.2.trans p2.2).trans p1.2)⟩
      | ok v =>
        rcases v with ⟨mp, st₃⟩
        have p3 := presFB_ok (chooseMountPoint_pres env u st₂) h₃
        dsimp only
        cases h₄ : checkMpDup mp st₃ with
        | error e =>
          rcases e with ⟨a, s⟩
          dsimp only
          have q := presFB_error (checkMpDup_pres mp st₃) h₄
          exact ⟨(((q.1.trans p3.1).trans p2.1).trans p1.1), (((q.2.trans p3.2).trans p2.2).trans p1.2)⟩
        | ok v =>
          rcases v with ⟨_, st₄⟩
          have p4 := presFB_ok (checkMpDup_pres mp st₃) h₄
          dsimp only
          cases h₅ : chooseFsType env u st₄ with
          | error e =>
            rcases e with ⟨a, s⟩
            dsimp only
            have q := presFB_error (chooseFsType_pres env u st₄) h₅
            exact ⟨((((q.1.trans p4.1).trans p3.1).trans p2.1).trans p1.1), ((((q.2.trans p4.2).trans p3.2).trans p2.2).trans p1.2)⟩
          | ok v =>
            rcases v with ⟨fs, st₅⟩
            have p5 := presFB_ok (chooseFsType_pres env u st₄) h₅
            dsimp only
            cases h₆ : chooseOptions st₅ with
            | error e =>
              rcases e with ⟨a, s⟩
              dsimp only
              have q := presFB_error (chooseOptions_pres st₅) h₆
              exact ⟨(((((q.1.trans p5.1).trans p4.1).trans p3.1).trans p2.1).trans p1.1), (((((q.2.trans p5.2).trans p4.2).trans p3.2).trans p2.2).trans p1.2)⟩
            | ok v =>
              rcases v with ⟨mo, st₆⟩
              have p6 := presFB_ok (chooseOptions_pres st₅) h₆
              dsimp only
              cases h₇ : chooseDumpPass st₆ with
              | error e =>
                rcases e with ⟨a, s⟩
                dsimp only
                have q := presFB_error (chooseDumpPass_pres st₆) h₇
                exact ⟨((((((q.1.trans p6.1).trans p5.1).trans p4.1).trans p3.1).trans p2.1).trans p1.1), ((((((q.2.trans p6.2).trans p5.2).trans p4.2).trans p3.2).trans p2.2).trans p1.2)⟩
              | ok v =>
                rcases v with ⟨dp, st₇⟩
                have p7 := presFB_ok (chooseDumpPass_pres st₆) h₇
                dsimp only
                simp only [presFB, outSt]
                exact ⟨((((((p7.1.trans p6.1).trans p5.1).trans p4.1).trans p3.1).trans p2.1).trans p1.1), ((((((p7.2.trans p6.2).trans p5.2).trans p4.2).trans p3.2).trans p2.2).trans p1.2)⟩

theorem get_user_input_err {env : Env} {st st' : St} {e : Abort}
    (h : get_user_input env st = .error (e, st')) :
    e = .interrupt ∨ e = .exit 1 uuidEmptyMsg ∨ e = .exit 1 fstabMissingMsg ∨
      e = .exit 1 abortingMsg ∨ e = .exit 1 fsTypeEmptyMsg := by
  unfold get_user_input at h
  split at h
  · rename_i heq
    cases h
    rcases askUuid_err heq with h' | h' <;> simp [h']
  · split at h
    · rename_i heq
      cases h
      rcases checkUuidDup_err heq with h' | h' | h' <;> simp [h']
    · split at h
      · rename_i heq
        cases h
        simp [chooseMountPoint_err heq]
      · split at h
        · rename_i heq
          cases h
          rcases checkMpDup_err heq with h' | h' <;> simp [h']
        · split at h
          · rename_i heq
            cases h
            rcases chooseFsType_err heq with h' | h' <;> simp [h']
          · split at h
            · rename_i heq
              cases h
              simp [chooseOptions_err heq]
            · split at h
              · rename_i heq
                cases h
                simp [chooseDumpPass_err heq]
              · simp_all

theorem create_mount_point_dir_pres (env : Env) (mp : String) (st : St) :
    presFB st (create_mount_point_dir env mp st) := by
  unfold create_mount_point_dir
  split
  · cases h : readLine st with
    | ok v =>
      rcases v with ⟨ans, st₁⟩
      have hr := readLine_state st
      rw [h] at hr
      simp [outSt] at hr
      dsimp only
      split <;> (try split) <;> simp [presFB, outSt, hr.1, hr.2.1]
    | error e =>
      rcases e with ⟨a, st₁⟩
      have hr := readLine_state st
      rw [h] at hr
      simp [outSt] at hr
      simp [presFB, outSt, hr.1, hr.2.1]
  · split
    · simp [presFB, outSt]
    · split
      · simp [presFB, outSt]
      · rename_i entries hne
        dsimp only
        cases h : readLine { st with warnings := st.warnings ++ [mpNonEmptyWarn mp] } with
        | ok v =>
          rcases v with ⟨ans, st₂⟩
          have hr := readLine_state { st with warnings := st.warnings ++ [mpNonEmptyWarn mp] }
          rw [h] at hr
          simp [outSt] at hr
          dsimp only
          split <;> simp [presFB, outSt, hr.1, hr.2.1]
        | error e =>
          rcases e with ⟨a, st₂⟩
          have hr := readLine_state { st with warnings := st.warnings ++ [mpNonEmptyWarn mp] }
          rw [h] at hr
          simp [outSt] at hr
          dsimp only
          simp [presFB, outSt, hr.1, hr.2.1]

theorem scanUuid_spec (drive_uuid : String) (lines : List String) :
    ∀ (i n : Nat) (lc : String),
      scanUuid drive_uuid lines i = some (n, lc) →
      i ≤ n ∧
      (∃ raw, lines[n - i]? = some raw ∧ lineMatchesUuid drive_uuid raw = true ∧
        lc = pyStrip raw) ∧
      (∀ j raw, j < n - i → lines[j]? = some raw →
        lineMatchesUuid drive_uuid raw = false) := by
  induction lines with
  | nil =>
    intro i n lc h
    simp [scanUuid] at h
  | cons l rest ih =>
    intro i n lc h
    simp only [scanUuid] at h
    by_cases hskip : (pyStrip l = "" ∨ strStartsWith (pyStrip l) "#" = true)
    · rw [if_pos hskip] at h
      obtain ⟨hin, ⟨raw, hget, hmatch, hlc⟩, hfirst⟩ := ih (i + 1) n lc h
      refine ⟨by omega, ⟨raw, ?_, hmatch, hlc⟩, ?_⟩
      · have hni : n - i = (n - (i + 1)) + 1 := by omega
        rw [hni, List.getElem?_cons_succ]
        exact hget
      · intro j raw₀ hj hg
        cases j with
        | zero =>
          rw [List.getElem?_cons_zero] at hg
          injection hg with hh
          subst hh
          simp [lineMatchesUuid, hskip]
        | succ k =>
          rw [List.getElem?_cons_succ] at hg
          exact hfirst k raw₀ (by omega) hg
    · rw [if_neg hskip] at h
      cases hp : pySplitWs (pyStrip l) with
      | nil =>
        rw [hp] at h
        dsimp only at h
        obtain ⟨hin, ⟨raw, hget, hmatch, hlc⟩, hfirst⟩ := ih (i + 1) n lc h
        refine ⟨by omega, ⟨raw, ?_, hmatch, hlc⟩, ?_⟩
        · have hni : n - i = (n - (i + 1)) + 1 := by omega
          rw [hni, List.getElem?_cons_succ]
          exact hget
        · intro j raw₀ hj hg
          cases j with
          | zero =>
            rw [List.getElem?_cons_zero] at hg
            injection hg with hh
            subst hh
            simp [lineMatchesUuid, hskip, hp]
          | succ k =>
            rw [List.getElem?_cons_succ] at hg
            exact hfirst k raw₀ (by omega) hg
      | cons p0 tail =>
        rw [hp] at h
        dsimp only at h
        by_cases hq : p0 = "UUID=" ++ drive_uuid
        · rw [if_pos hq] at h
          injection h with h'
          injection h' with hn hlc
          subst hn
          subst hlc
          refine ⟨Nat.le_refl i, ⟨l, ?_, ?_, rfl⟩, ?_⟩
          · simp
          · simp [lineMatchesUuid, hskip, hp, hq]
          · intro j raw₀ hj hg
            omega
        · rw [if_neg hq] at h
          obtain ⟨hin, ⟨raw, hget, hmatch, hlc⟩, hfirst⟩ := ih (i + 1) n lc h
          refine ⟨by omega, ⟨raw, ?_, hmatch, hlc⟩, ?_⟩
          · have hni : n - i = (n - (i + 1)) + 1 := by omega
            rw [hni, List.getElem?_cons_succ]
            exact hget
          · intro j raw₀ hj hg
            cases j with
            | zero =>
              rw [List.getElem?_cons_zero] at hg
              injection hg with hh
              subst hh
              simp [lineMatchesUuid, hskip, hp, hq]
            | succ k =>
              rw [List.getElem?_cons_succ] at hg
              exact hfirst k raw₀ (by omega) hg

theorem natDigitsGo_small (f n : Nat) (acc : List Char) (h : n < 10) :
    natDigitsGo (f + 1) n acc = digitChar n :: acc := by
  simp [natDigitsGo, h]

theorem natDigitsGo_step (f n : Nat) (acc : List Char) (h : ¬ n < 10) :
    natDigitsGo (f + 1) n acc = natDigitsGo f (n / 10) (digitChar (n % 10) :: acc) := by
  simp [natDigitsGo, h]

theorem digitChar_isDigit (d : Nat) (h : d < 10) : (digitChar d).isDigit = true := by
  interval_cases d <;> decide

theorem natToStr_data_one (n : Nat) (h : n < 10) :
    (natToStr n).data = [digitChar n] := by
  unfold natToStr
  rw [natDigitsGo_small n n [] h]

theorem natToStr_data_two (n : Nat) (h10 : 10 ≤ n) (h : n < 100) :
    (natToStr n).data = [digitChar (n / 10), digitChar (n % 10)] := by
  unfold natToStr
  rw [natDigitsGo_step n n [] (by omega)]
  obtain ⟨f, rfl⟩ : ∃ f, n = f + 1 := ⟨n - 1, by omega⟩
  rw [natDigitsGo_small f ((f + 1) / 10) _ (by omega)]

theorem natToStr_data_three (n : Nat) (h100 : 100 ≤ n) (h : n < 1000) :
    (natToStr n).data =
      [digitChar (n / 10 / 10), digitChar (n / 10 % 10), digitChar (n % 10)] := by
  unfold natToStr
  rw [natDigitsGo_step n n [] (by omega)]
  obtain ⟨f, rfl⟩ : ∃ f, n = f + 2 := ⟨n - 2, by omega⟩
  rw [show f + 2 = f + 1 + 1 from by omega]
  rw [natDigitsGo_step (f + 1) _ _ (by omega)]
  rw [natDigitsGo_small f _ _ (by omega)]

theorem natToStr_data_four (n : Nat) (h1000 : 1000 ≤ n) (h : n < 10000) :
    (natToStr n).data =
      [digitChar (n / 10 / 10 / 10), digitChar (n / 10 / 10 % 10),
        digitChar (n / 10 % 10), digitChar (n % 10)] := by
  unfold natToStr
  rw [natDigitsGo_step n n [] (by omega)]
  obtain ⟨f, rfl⟩ : ∃ f, n = f + 3 := ⟨n - 3, by omega⟩
  rw [show f + 3 = f + 2 + 1 from by omega]
  rw [natDigitsGo_step (f + 2) _ _ (by omega)]
  rw [show f + 2 = f + 1 + 1 from by omega]
  rw [natDigitsGo_step (f + 1) _ _ (by omega)]
  rw [natDigitsGo_small f _ _ (by omega)]

theorem digitsOnly_append {a b : List Char} (ha : digitsOnly a) (hb : digitsOnly b) :
    digitsOnly (a ++ b) := by
  intro c hc
  rcases List.mem_append.mp hc with h | h
  · exact ha c h
  · exact hb c h

theorem pad2_spec (n : Nat) (h : n ≤ 99) :
    (pad2 n).data.length = 2 ∧ digitsOnly (pad2 n).data := by
  unfold pad2
  split
  · rename_i h10
    rw [String.data_append, natToStr_data_one n h10]
    refine ⟨rfl, ?_⟩
    intro c hc
    rcases List.mem_cons.mp hc with rfl | hc
    · decide
    · rcases List.mem_cons.mp hc with rfl | hc
      · exact digitChar_isDigit n h10
      · simp at hc
  · rename_i h10
    rw [natToStr_data_two n (by omega) (by omega)]
    refine ⟨rfl, ?_⟩
    intro c hc
    rcases List.mem_cons.mp hc with rfl | hc
    · exact digitChar_isDigit _ (by omega)
    · rcases List.mem_cons.mp hc with rfl | hc
      · exact digitChar_isDigit _ (by omega)
      · simp at hc

theorem pad4_spec (n : Nat) (h : n ≤ 9999) :
    (pad4 n).data.length = 4 ∧ digitsOnly (pad4 n).data := by
  unfold pad4
  split
  · rename_i h10
    rw [String.data_append, natToStr_data_one n h10]
    refine ⟨rfl, ?_⟩
    intro c hc
    simp only [List.mem_append, List.mem_cons] at hc
    rcases hc with (rfl | rfl | rfl | hc) | (rfl | hc)
    · decide
    · decide
    · decide
    · simp at hc
    · exact digitChar_isDigit n h10
    · simp at hc
  · split
    · rename_i h10 h100
      rw [String.data_append, natToStr_data_two n (by omega) (by omega)]
      refine ⟨rfl, ?_⟩
      intro c hc
      simp only [List.mem_append, List.mem_cons] at hc
      rcases hc with (rfl | rfl | hc) | (rfl | rfl | hc)
      · decide
      · decide
      · simp at hc
      · exact digitChar_isDigit _ (by omega)
      · exact digitChar_isDigit _ (by omega)
      · simp at hc
    · split
      · rename_i h10 h100 h1000
        rw [String.data_append, natToStr_data_three n (by omega) (by omega)]
        refine ⟨rfl, ?_⟩
        intro c hc
        simp only [List.mem_append, List.mem_cons] at hc
        rcases hc with (rfl | hc) | (rfl | rfl | rfl | hc)
        · decide
        · simp at hc
        · exact digitChar_isDigit _ (by omega)
        · exact digitChar_isDigit _ (by omega)
        · exact digitChar_isDigit _ (by omega)
        · simp at hc
      · rename_i h10 h100 h1000
        rw [natToStr_data_four n (by omega) (by omega)]
        refine ⟨rfl, ?_⟩
        intro c hc
        simp only [List.mem_cons] at hc
        rcases hc with rfl | rfl | rfl | rfl | hc
        · exact digitChar_isDigit _ (by omega)
        · exact digitChar_isDigit _ (by omega)
        · exact digitChar_isDigit _ (by omega)
        · exact digitChar_isDigit _ (by omega)
        · simp at hc

theorem strftimeBackupStamp_wf (t : DateTime) (h : validDT t) :
    stampWellFormed (strftimeBackupStamp t) := by
  obtain ⟨hy, hmo, hd, hh, hmi, hs⟩ := h
  obtain ⟨ly, dy⟩ := pad4_spec t.year hy
  obtain ⟨lmo, dmo⟩ := pad2_spec t.month hmo
  obtain ⟨ld, dd⟩ := pad2_spec t.day hd
  obtain ⟨lh, dh⟩ := pad2_spec t.hour hh
  obtain ⟨lmi, dmi⟩ := pad2_spec t.minute hmi
  obtain ⟨ls, ds⟩ := pad2_spec t.second hs
  refine ⟨(pad4 t.year).data ++ (pad2 t.month).data ++ (pad2 t.day).data,
    (pad2 t.hour).data ++ (pad2 t.minute).data ++ (pad2 t.second).data,
    ?_, ?_, ?_, ?_, ?_⟩
  · unfold strftimeBackupStamp
    simp [String.data_append, List.append_assoc]
  · simp [ly, lmo, ld]
  · simp [lh, lmi, ls]
  · exact digitsOnly_append (digitsOnly_append dy dmo) dd
  · exact digitsOnly_append (digitsOnly_append dh dmi) ds

/-- Claim C10: the fatal empty-mount-point branch is unreachable — the
suggested default is always a non-empty `/mnt/...` path, so `get_user_input`
never aborts with the empty-mount-point message. -/
theorem c10_mount_point_empty_unreachable :
    (∀ (label : Option String) (uuid : String), suggested_mount_point label uuid ≠ "") ∧
    (∀ (env : Env) (st st' : St) (e : Abort),
      get_user_input env st = .error (e, st') → e ≠ .exit 1 mountPointEmptyMsg) := by
  refine ⟨suggested_mount_point_ne_empty, ?_⟩
  intro env st st' e h
  rcases get_user_input_err h with h' | h' | h' | h' | h' <;> subst h' <;> decide

theorem c10_witness : Abort.exit 1 uuidEmptyMsg ≠ Abort.exit 1 mountPointEmptyMsg :=
  c10_mount_point_empty_unreachable.2 envBase ⟨[.line " "], some "", [], [], []⟩
    ⟨[], some "", [], [], []⟩ (.exit 1 uuidEmptyMsg) (by decide)

/-- Claim C4: an identifier answer that is empty after stripping makes the
run exit with status 1, leaving the table file and the backups untouched. -/
theorem c4_empty_uuid_fatal (env : Env) (st : St) (raw : String) (rest : List Inp)
    (hroot : env.isRoot = true)
    (hin : st.inputs = .line raw :: rest)
    (hraw : pyStrip raw = "") :
    runMain env st = ⟨1, uuidEmptyMsg, { st with inputs := rest }⟩ ∧
    ({ st with inputs := rest }).fstab = st.fstab ∧
    ({ st with inputs := rest }).backups = st.backups := by
  refine ⟨?_, rfl, rfl⟩
  rcases st with ⟨ins, f, b, d, w⟩
  simp only at hin
  subst hin
  simp [runMain, hroot, pipeline, get_user_input, askUuid, readLine, hraw]

theorem c4_witness :
    runMain envBase ⟨[.line "  "], some "x\n", [], [], []⟩ =
      ⟨1, uuidEmptyMsg, ⟨[], some "x\n", [], [], []⟩⟩ :=
  (c4_empty_uuid_fatal envBase ⟨[.line "  "], some "x\n", [], [], []⟩ "  " []
    rfl rfl (by decide)).1

/-- Claim C8: an operator interrupt at the identifier prompt exits with
status 1 and the dedicated cancellation message, distinct from every other
fatal message, with the table file and backups untouched. -/
theorem c8_interrupt_identifier_prompt (env : Env) (st : St) (rest : List Inp)
    (hroot : env.isRoot = true)
    (hin : st.inputs = .interrupt :: rest) :
    runMain env st = ⟨1, interruptMsg, { st with inputs := rest }⟩ ∧
    ({ st with inputs := rest }).fstab = st.fstab ∧
    ({ st with inputs := rest }).backups = st.backups ∧
    interruptMsg ≠ uuidEmptyMsg ∧ interruptMsg ≠ fstabMissingMsg ∧
    interruptMsg ≠ abortingMsg ∧ interruptMsg ≠ mountPointEmptyMsg ∧
    interruptMsg ≠ fsTypeEmptyMsg ∧ interruptMsg ≠ mkdirFailMsg ∧
    interruptMsg ≠ backupFailMsg ∧ interruptMsg ≠ appendFailMsg ∧
    interruptMsg ≠ rootMsg := by
  refine ⟨?_, rfl, rfl, by decide, by decide, by decide, by decide, by decide,
    by decide, by decide, by decide, by decide⟩
  rcases st with ⟨ins, f, b, d, w⟩
  simp only at hin
  subst hin
  simp [runMain, hroot, pipeline, get_user_input, askUuid, readLine]

theorem c8_witness :
    runMain envBase ⟨[.interrupt], some "x\n", [], [], []⟩ =
      ⟨1, interruptMsg, ⟨[], some "x\n", [], [], []⟩⟩ :=
  (c8_interrupt_identifier_prompt envBase ⟨[.interrupt], some "x\n", [], [], []⟩ []
    rfl rfl).1

/-- Claim C1 (counterexample): for an empty prior table file — which does
not end with a newline — the confirmed run emits no leading newline, so the
result differs from the claim's predicted `original + newline + comment +
entry` layout. -/
theorem c1_claim_counterexample :
    endsWithNewline "" = false ∧
    add_to_fstab envBase params0 stEmptyFstab =
      .ok ((), ⟨[],
        some "# Entry added by script on 2024-01-02 03:04:05\nUUID=U1 /mnt/x ext4 defaults 0 0\n",
        [("/etc/fstab.bak.20240102-030405", "")], [], []⟩) ∧
    ("# Entry added by script on 2024-01-02 03:04:05\nUUID=U1 /mnt/x ext4 defaults 0 0\n" : String) ≠
      "\n" ++ "# Entry added by script on 2024-01-02 03:04:05" ++ "\n" ++
        "UUID=U1 /mnt/x ext4 defaults 0 0" ++ "\n" :=
  ⟨rfl, by decide, by decide⟩

/-- Claim C1 (amended): a successful confirmed run leaves the table file
equal to the original content, with a newline emitted first whenever that
existing content is non-empty and does not end with a newline, followed by
one timestamp comment line and one entry line of the five fields joined by
single spaces, each newline-terminated. -/
theorem c1_append_amended (env : Env) (p : Params) (st : St) (ans : String)
    (rest : List Inp) (content : String)
    (hin : st.inputs = .line ans :: rest)
    (hyes : pyLower ans = "yes")
    (hf : st.fstab = some content)
    (hb : env.backupOk = true) (ha : env.appendOk = true) :
    add_to_fstab env p st =
      .ok ((), { st with
        inputs := rest
        backups := st.backups ++ [(backupPath env.now, content)]
        fstab := some (content ++
          (if content ≠ "" ∧ endsWithNewline content = false then "\n" else "") ++
          entryComment env.now ++ "\n" ++ fstabEntry p ++ "\n") }) ∧
    fstabEntry p = "UUID=" ++ p.drive_uuid ++ " " ++ p.mount_point ++ " " ++
      p.fs_type ++ " " ++ p.mount_options ++ " " ++ p.dump_pass ∧
    entryComment env.now = "# Entry added by script on " ++ strftimeCommentStamp env.now := by
  refine ⟨?_, rfl, rfl⟩
  rcases st with ⟨ins, f, b, d, w⟩
  simp only at hin hf
  subst hin
  subst hf
  simp [add_to_fstab, readLine, hyes, hb, ha]

theorem c1_append_amended_witness :
    add_to_fstab envBase params0 ⟨[.line "YES"], some "old content", [], [], []⟩ =
      .ok ((), ⟨[],
        some "old content\n# Entry added by script on 2024-01-02 03:04:05\nUUID=U1 /mnt/x ext4 defaults 0 0\n",
        [("/etc/fstab.bak.20240102-030405", "old content")], [], []⟩) :=
  ((c1_append_amended envBase params0 ⟨[.line "YES"], some "old content", [], [], []⟩
    "YES" [] "old content" rfl (by decide) rfl rfl rfl).1).trans (by decide)

/-- Claim C2: on a confirmed write, the table file is first copied, byte for
byte, to the base path plus `.bak.` plus a `YYYYMMDD-HHMMSS` stamp; the copy
is recorded whether or not the append then succeeds, an append failure exits
non-zero leaving the table unchanged, and a backup failure exits non-zero
with no append and no backup recorded. -/
theorem c2_backup_before_append (env : Env) (st : St) (ans : String)
    (rest : List Inp) (p : Params)
    (hin : st.inputs = .line ans :: rest)
    (hyes : pyLower ans = "yes") :
    (∀ content, st.fstab = some content → env.backupOk = true →
      (outSt (add_to_fstab env p st)).backups =
        st.backups ++ [(backupPath env.now, content)] ∧
      (env.appendOk = false →
        add_to_fstab env p st =
          .error (.exit 1 appendFailMsg,
            { st with
              inputs := rest
              backups := st.backups ++ [(backupPath env.now, content)] }))) ∧
    ((env.backupOk = false ∨ st.fstab = none) →
      add_to_fstab env p st = .error (.exit 1 backupFailMsg, { st with inputs := rest })) ∧
    backupPath env.now = FSTAB_FILE ++ ".bak." ++ strftimeBackupStamp env.now ∧
    (validDT env.now → stampWellFormed (strftimeBackupStamp env.now)) := by
  refine ⟨?_, ?_, rfl, strftimeBackupStamp_wf env.now⟩
  · intro content hc hb
    rcases st with ⟨ins, f, b, d, w⟩
    simp only at hin hc
    subst hin
    subst hc
    constructor
    · cases hap : env.appendOk <;> simp [add_to_fstab, readLine, hyes, hb, hap, outSt]
    · intro hap
      simp [add_to_fstab, readLine, hyes, hb, hap]
  · intro hcase
    rcases st with ⟨ins, f, b, d, w⟩
    simp only at hin
    subst hin
    rcases hcase with hb | hf
    · cases f with
      | none => simp [add_to_fstab, readLine, hyes, hb]
      | some c => simp [add_to_fstab, readLine, hyes, hb]
    · simp only at hf
      subst hf
      cases hb : env.backupOk <;> simp [add_to_fstab, readLine, hyes, hb]

theorem c2_witness :
    (outSt (add_to_fstab envBase params0 ⟨[.line "yes"], some "root stuff\n", [], [], []⟩)).backups =
      [("/etc/fstab.bak.20240102-030405", "root stuff\n")] ∧
    stampWellFormed (strftimeBackupStamp envBase.now) := by
  have h := c2_backup_before_append envBase ⟨[.line "yes"], some "root stuff\n", [], [], []⟩
    "yes" [] params0 rfl rfl
  refine ⟨((h.1 "root stuff\n" rfl rfl).1).trans (by decide), ?_⟩
  exact h.2.2.2 (by refine ⟨?_, ?_, ?_, ?_, ?_, ?_⟩ <;> decide)

/-- Claim C9: with an empty identifier both metadata lookups return `none`,
and a missing executable or a failing tool invocation is swallowed: the
lookups are total functions into `Option` and never abort. -/
theorem c9_lookup_failures_swallowed :
    (∀ tool : ToolResult, get_fs_type_for_uuid "" tool = none ∧
      get_label_for_uuid "" tool = none) ∧
    (∀ uuid : String, get_fs_type_for_uuid uuid .missing = none ∧
      get_label_for_uuid uuid .missing = none) ∧
    (∀ (uuid out : String) (rc : Int), rc ≠ 0 →
      get_fs_type_for_uuid uuid (.ran rc out) = none ∧
      get_label_for_uuid uuid (.ran rc out) = none) := by
  refine ⟨?_, ?_, ?_⟩
  · intro tool
    constructor <;> simp [get_fs_type_for_uuid, get_label_for_uuid]
  · intro uuid
    constructor
    · unfold get_fs_type_for_uuid
      split <;> rfl
    · unfold get_label_for_uuid
      split <;> rfl
  · intro uuid out rc hrc
    constructor
    · unfold get_fs_type_for_uuid
      split
      · rfl
      · simp [hrc]
    · unfold get_label_for_uuid
      split
      · rfl
      · simp [hrc]

theorem c9_witness :
    get_fs_type_for_uuid "abc" (.ran 2 "ext4\n") = none ∧
    get_label_for_uuid "abc" (.ran 2 "LABEL=x\n") = none :=
  ⟨(c9_lookup_failures_swallowed.2.2 "abc" "ext4\n" 2 (by decide)).1,
    (c9_lookup_failures_swallowed.2.2 "abc" "LABEL=x\n" 2 (by decide)).2⟩

/-- Claim C3: when the table file has an active line whose first token is
`UUID=<id>`, the duplicate check warns with that line's number and content
(the first such line — every earlier active line does not match), consumes a
confirmation, aborts with status 1 on any answer other than `yes` leaving
the table file and backups untouched, and continues on `yes`. -/
theorem c3_duplicate_uuid_check (env : Env) (st : St) (raw ans drive_uuid : String)
    (rest : List Inp) (content : String) (n : Nat) (lc : String)
    (hroot : env.isRoot = true)
    (hin : st.inputs = .line raw :: .line ans :: rest)
    (hraw : pyStrip raw = drive_uuid)
    (hne : drive_uuid ≠ "")
    (hf : st.fstab = some content)
    (hscan : scanUuid drive_uuid (splitLines content) 1 = some (n, lc))
    (hno : pyLower ans ≠ "yes") :
    runMain env st =
      ⟨1, abortingMsg,
        { st with
          inputs := rest
          warnings := st.warnings ++ [uuidDupWarn drive_uuid n, "  " ++ lc] }⟩ ∧
    (∃ raw₀, (splitLines content)[n - 1]? = some raw₀ ∧
      lineMatchesUuid drive_uuid raw₀ = true ∧ lc = pyStrip raw₀) ∧
    (∀ j raw₀, j < n - 1 → (splitLines content)[j]? = some raw₀ →
      lineMatchesUuid drive_uuid raw₀ = false) ∧
    (∀ (ans₂ : String) (rest₂ : List Inp), pyLower ans₂ = "yes" →
      checkUuidDup drive_uuid { st with inputs := .line ans₂ :: rest₂ } =
        .ok ((), { st with
          inputs := rest₂
          warnings := st.warnings ++ [uuidDupWarn drive_uuid n, "  " ++ lc] })) := by
  obtain ⟨hle, hex, hfirst⟩ := scanUuid_spec drive_uuid (splitLines content) 1 n lc hscan
  subst hraw
  refine ⟨?_, hex, hfirst, ?_⟩
  · rcases st with ⟨ins, f, b, d, w⟩
    simp only at hin hf
    subst hin
    subst hf
    simp [runMain, hroot, pipeline, get_user_input, askUuid, readLine, hne,
      checkUuidDup, hscan, hno]
  · intro ans₂ rest₂ hy2
    rcases st with ⟨ins, f, b, d, w⟩
    simp only at hf
    subst hf
    simp [checkUuidDup, hscan, readLine, hy2]

theorem c3_witness :
    runMain envBase
        ⟨[.line "AA-11", .line "no"], some "UUID=AA-11 /mnt/a ext4 defaults 0 0\n", [], [], []⟩ =
      ⟨1, abortingMsg,
        ⟨[], some "UUID=AA-11 /mnt/a ext4 defaults 0 0\n", [],
          [], [uuidDupWarn "AA-11" 1, "  UUID=AA-11 /mnt/a ext4 defaults 0 0"]⟩⟩ :=
  ((c3_duplicate_uuid_check envBase
    ⟨[.line "AA-11", .line "no"], some "UUID=AA-11 /mnt/a ext4 defaults 0 0\n", [], [], []⟩
    "AA-11" "no" "AA-11" [] "UUID=AA-11 /mnt/a ext4 defaults 0 0\n" 1
    "UUID=AA-11 /mnt/a ext4 defaults 0 0"
    rfl rfl rfl (by decide) rfl (by decide) (by decide)).1).trans (by decide)

/-- Claim C5: declining the final confirmation returns normally — exit
status 0 with no message — and leaves the table file and backups exactly as
they were at the start of the run. -/
theorem c5_decline_final_confirmation (env : Env) (st st₁ st₂ : St) (p : Params)
    (ans : String) (rest : List Inp)
    (hroot : env.isRoot = true)
    (h1 : get_user_input env st = .ok (p, st₁))
    (h2 : create_mount_point_dir env p.mount_point st₁ = .ok ((), st₂))
    (hin : st₂.inputs = .line ans :: rest)
    (hno : pyLower ans ≠ "yes") :
    runMain env st = ⟨0, "", { st₂ with inputs := rest }⟩ ∧
    ({ st₂ with inputs := rest }).fstab = st.fstab ∧
    ({ st₂ with inputs := rest }).backups = st.backups := by
  have q1 := presFB_ok (get_user_input_pres env st) h1
  have q2 := presFB_ok (create_mount_point_dir_pres env p.mount_point st₁) h2
  have hadd : add_to_fstab env p st₂ = .ok ((), { st₂ with inputs := rest }) := by
    rcases st₂ with ⟨ins, f, b, d, w⟩
    simp only at hin
    subst hin
    simp [add_to_fstab, readLine, hno]
  refine ⟨?_, ?_, ?_⟩
  · simp [runMain, hroot, pipeline, h1, h2, hadd]
  · exact q2.1.trans q1.1
  · exact q2.2.trans q1.2

theorem c5_witness :
    runMain envBase ⟨[.line "U9", .line "/mnt/z", .line "ext4", .line "", .line "", .line "nope"],
        some "# fstab\n", [], [], []⟩ =
      ⟨0, "", ⟨[], some "# fstab\n", [], [], []⟩⟩ :=
  ((c5_decline_final_confirmation envBase
    ⟨[.line "U9", .line "/mnt/z", .line "ext4", .line "", .line "", .line "nope"],
      some "# fstab\n", [], [], []⟩
    ⟨[.line "nope"], some "# fstab\n", [], [], []⟩
    ⟨[.line "nope"], some "# fstab\n", [], [], []⟩
    ⟨"U9", "/mnt/z", "ext4", "defaults", "0 0"⟩ "nope" []
    rfl (by decide) (by decide) rfl (by decide)).1).trans (by decide)

/-- Claim C6: the specification's worked scenario — identifier `ABCD-1234`,
no prior matching entries, blank mount point with label `Backup Drive`
detected, `ntfs` detected and accepted, blank options and dump/pass — yields
the suggested mount point `/mnt/backup_drive`, defaults `defaults` and
`0 0`, and the entry `UUID=ABCD-1234 /mnt/backup_drive ntfs defaults 0 0`. -/
theorem c6_scenario_backup_drive :
    get_user_input env6 st6 =
      .ok (⟨"ABCD-1234", "/mnt/backup_drive", "ntfs", "defaults", "0 0"⟩,
        ⟨[], st6.fstab, [], [], []⟩) ∧
    suggested_mount_point (get_label_for_uuid "ABCD-1234" env6.labelTool) "ABCD-1234" =
      "/mnt/backup_drive" ∧
    fstabEntry ⟨"ABCD-1234", "/mnt/backup_drive", "ntfs", "defaults", "0 0"⟩ =
      "UUID=ABCD-1234 /mnt/backup_drive ntfs defaults 0 0" := by
  refine ⟨by decide, by decide, by decide⟩

/-- Claim C7: when the mount-point directory does not exist and the
operator declines creating it, the stage returns normally (printing only a
warning), creates no directory, and the confirmed table append afterwards
still succeeds — entry addition is independent of directory existence. -/
theorem c7_decline_mkdir_still_appends (env : Env) (p : Params) (st : St)
    (ans confirmAns : String) (rest : List Inp) (content : String)
    (hdir : env.dirIsDir = false)
    (hin : st.inputs = .line ans :: .line confirmAns :: rest)
    (hno : pyLower ans ≠ "yes")
    (hyes : pyLower confirmAns = "yes")
    (hf : st.fstab = some content)
    (hb : env.backupOk = true) (ha : env.appendOk = true) :
    create_mount_point_dir env p.mount_point st =
      .ok ((), { st with
        inputs := .line confirmAns :: rest
        warnings := st.warnings ++ [mpNotCreatedWarn p.mount_point] }) ∧
    (outSt (create_mount_point_dir env p.mount_point st)).dirsCreated = st.dirsCreated ∧
    add_to_fstab env p
        { st with
          inputs := .line confirmAns :: rest
          warnings := st.warnings ++ [mpNotCreatedWarn p.mount_point] } =
      .ok ((), { st with
        inputs := rest
        warnings := st.warnings ++ [mpNotCreatedWarn p.mount_point]
        backups := st.backups ++ [(backupPath env.now, content)]
        fstab := some (content ++
          (if content ≠ "" ∧ endsWithNewline content = false then "\n" else "") ++
          entryComment env.now ++ "\n" ++ fstabEntry p ++ "\n") }) := by
  have hcreate : create_mount_point_dir env p.mount_point st =
      .ok ((), { st with
        inputs := .line confirmAns :: rest
        warnings := st.warnings ++ [mpNotCreatedWarn p.mount_point] }) := by
    rcases st with ⟨ins, f, b, d, w⟩
    simp only at hin
    subst hin
    simp [create_mount_point_dir, hdir, readLine, hno]
  refine ⟨hcreate, ?_, ?_⟩
  · rw [hcreate]
    rfl
  · rcases st with ⟨ins, f, b, d, w⟩
    simp only at hin hf
    subst hin
    subst hf
    simp [add_to_fstab, readLine, hyes, hb, ha]

theorem c7_witness :
    create_mount_point_dir { envBase with dirIsDir := false } params0.mount_point
        ⟨[.line "no", .line "yes"], some "x\n", [], [], []⟩ =
      .ok ((), ⟨[.line "yes"], some "x\n", [], [], [mpNotCreatedWarn "/mnt/x"]⟩) ∧
    add_to_fstab { envBase with dirIsDir := false } params0
        ⟨[.line "yes"], some "x\n", [], [], [mpNotCreatedWarn "/mnt/x"]⟩ =
      .ok ((), ⟨[], some "x\n# Entry added by script on 2024-01-02 03:04:05\nUUID=U1 /mnt/x ext4 defaults 0 0\n",
        [("/etc/fstab.bak.20240102-030405", "x\n")], [], [mpNotCreatedWarn "/mnt/x"]⟩) := by
  have h := c7_decline_mkdir_still_appends { envBase with dirIsDir := false } params0
    ⟨[.line "no", .line "yes"], some "x\n", [], [], []⟩
    "no" "yes" [] "x\n" rfl rfl (by decide) (by decide) rfl rfl rfl
  exact ⟨(h.1).trans (by decide), (h.2.2).trans (by decide)⟩
